import Mathlib

/-!
Shallow embedding of the MCP Audit System's server lifecycle and
tool-invocation layer (`ServerManager` and `MCPClient` in
`MCP Audit System/flask_app.py`).

Python dictionaries (`config['servers']`, `self.active_servers`) are
modelled as association lists `List (String × α)` with unique keys;
`in` is `memKey`, indexing is `lookupKey`, `del` is `eraseKey`.
Wall-clock instants (`time.time()`, `datetime.now()`) are a `Nat`
parameter `now`.  The operating system is a parameter as well: the
liveness a `poll()` call would observe is the `alive` field of the
stored `ProcState`, a spawn attempt (`subprocess.Popen`) is a function
`List String → Except String ProcState` from the command line to either
an OS error message or a fresh process, and the helper subprocess run
by `call_tool` is its `(returncode, stderr)` outcome (or an exception
message).
-/

namespace MCPAudit

/-- `lookupKey k l` is Python's `l[k]` / `l.get(k)` on a dict modelled as an
association list. -/
def lookupKey {α : Type} (k : String) : List (String × α) → Option α
  | [] => none
  | (k', v) :: rest => if k' = k then some v else lookupKey k rest

/-- `memKey k l` is Python's `k in l` on a dict. -/
def memKey {α : Type} (k : String) (l : List (String × α)) : Bool :=
  (lookupKey k l).isSome

/-- `eraseKey k l` is Python's `del l[k]` on a dict (removes the entry with
key `k`; on unique-key lists filtering is exactly single removal). -/
def eraseKey {α : Type} (k : String) (l : List (String × α)) : List (String × α) :=
  l.filter (fun p => decide (p.1 ≠ k))

/-- Key uniqueness of a dict modelled as an association list. -/
@[reducible] def keysNodup {α : Type} (l : List (String × α)) : Prop :=
  (l.map Prod.fst).Nodup

/-- The OS-level view of one spawned worker process: its pid, whether
`poll()` would currently return `None` (`alive = true`), and the exit code
`poll()` reports once it has exited. -/
structure ProcState where
  pid : Nat
  alive : Bool
  exitCode : Int
  deriving Repr, DecidableEq

/-- One entry of `config['servers']`: the fields `start_server` reads
(`config['host']`, `config['port']`). -/
structure WorkerConfig where
  host : String
  port : Nat
  deriving Repr, DecidableEq

/-- The loaded `server_config.json` contents: `servers` dict plus the
optional `default_server` key. -/
structure Config where
  servers : List (String × WorkerConfig)
  default_server : Option String
  deriving Repr, DecidableEq

/-- One value of `self.active_servers`: the stored `process`, the
`started_at` / `start_time` timestamps and the `config` back-reference
(flask_app.py lines 202-207). -/
structure RunningInfo where
  process : ProcState
  started_at : Nat
  start_time : Nat
  config : WorkerConfig
  deriving Repr, DecidableEq

/-- The mutable state of a `ServerManager` instance: the loaded `config`,
the `active_servers` dict and the `current_server` attribute (always a
string in the source; it is never set to `None`). -/
structure ServerManager where
  config : Config
  active_servers : List (String × RunningInfo)
  current_server : String
  deriving Repr, DecidableEq

/-- `ServerManager.__init__` (flask_app.py lines 104-109):
`active_servers = {}` and
`current_server = config.get('default_server', 'SecureAudit')`. -/
def ServerManager.init (cfg : Config) : ServerManager :=
  { config := cfg
    active_servers := []
    current_server := cfg.default_server.getD "SecureAudit" }

/-- The spec's `currentActive()` read on this code: the `current_server`
attribute always holds a name, so the answer is always `some`. -/
def currentActive (m : ServerManager) : Option String :=
  some m.current_server

/-- The three dict shapes `get_server_status` can return:
`{'running': True, 'pid': ..., 'started_at': ..., 'uptime': ...}`,
`{'running': False, 'exit_code': ..., 'ended_at': ...}`, and
`{'running': False}`. -/
inductive ServerStatus where
  | running (pid : Nat) (started_at : Nat) (uptime : Nat)
  | exited (exit_code : Int) (ended_at : Nat)
  | notRunning
  deriving Repr, DecidableEq

/-- Python's `status['running']` field. -/
def ServerStatus.isRunning : ServerStatus → Bool
  | .running _ _ _ => true
  | _ => false

/-- `ServerManager.get_server_status` (flask_app.py lines 141-163).
Looks the name up in `active_servers`, polls the stored process, and on a
dead process deletes the entry (lazy reap) before reporting the exit
code. Returns the status together with the possibly-mutated manager. -/
def get_server_status (m : ServerManager) (name : String) (now : Nat) :
    ServerStatus × ServerManager :=
  match lookupKey name m.active_servers with
  | some info =>
      if info.process.alive then
        (ServerStatus.running info.process.pid info.started_at (now - info.start_time), m)
      else
        (ServerStatus.exited info.process.exitCode now,
         { m with active_servers := eraseKey name m.active_servers })
  | none => (ServerStatus.notRunning, m)

/-- The in-code `server_commands` lookup table of `start_server`
(flask_app.py lines 180-187): a fixed four-entry dict keyed by name,
reading `config['host']` / `config['port']` only for the HTTP and SSE
entries; `dict.get` yields `None` for every other name. -/
def server_commands (name : String) (config : WorkerConfig) : Option (List String) :=
  if name = "SecureAudit" then
    some ["python3", "servers/secure_audit_server.py", "--transport", "stdio"]
  else if name = "SampleServer" then
    some ["python3", "servers/sample_server.py", "--transport", "stdio"]
  else if name = "HttpAuditServer" then
    some ["python3", "servers/http_audit_server.py", "--transport", "http",
          "--host", config.host, "--port", toString config.port]
  else if name = "SSEAuditServer" then
    some ["python3", "servers/sse_audit_server.py", "--transport", "sse",
          "--host", config.host, "--port", toString config.port]
  else
    none

/-- The body of `start_server` after its already-running early return
(flask_app.py lines 174-214): config lookup, command-table lookup, spawn,
and registration of the new `RunningInfo`. -/
def start_spawn (m : ServerManager) (name : String) (now : Nat)
    (spawn : List String → Except String ProcState) :
    (Bool × String) × ServerManager :=
  match lookupKey name m.config.servers with
  | none => ((false, "Server " ++ name ++ " not found in configuration"), m)
  | some cfg =>
      match server_commands name cfg with
      | none => ((false, "Unknown server: " ++ name), m)
      | some cmd =>
          match spawn cmd with
          | Except.error e => ((false, "Failed to start server: " ++ e), m)
          | Except.ok p =>
              ((true, "Started " ++ name ++ " successfully"),
               { m with active_servers :=
                   m.active_servers ++
                     [(name, { process := p, started_at := now, start_time := now,
                               config := cfg })] })

/-- `ServerManager.start_server` (flask_app.py lines 165-214).  If the name
is in `active_servers`, queries status (which lazily reaps a dead entry)
and fails when still running; otherwise falls through to the spawn path. -/
def start_server (m : ServerManager) (name : String) (now : Nat)
    (spawn : List String → Except String ProcState) :
    (Bool × String) × ServerManager :=
  if memKey name m.active_servers then
    let r := get_server_status m name now
    if r.1.isRunning then
      ((false, "Server " ++ name ++ " is already running"), r.2)
    else
      start_spawn r.2 name now spawn
  else
    start_spawn m name now spawn

/-- The process-control calls `stop_server` issues, in order
(flask_app.py lines 227-236): `terminate()`, `wait(timeout=5)`, and on
`TimeoutExpired` also `kill()` then an unbounded `wait()`. -/
inductive StopAction where
  | terminate
  | waitGrace (timeout : Nat)
  | kill
  | waitForever
  deriving Repr, DecidableEq

/-- `ServerManager.stop_server` (flask_app.py lines 216-244).  Fails when
the name is not in `active_servers`; otherwise terminates (gracefully
within the 5-second window when `exitsWithinGrace`, else force-kill and
unbounded wait), deletes the entry, and reports success.  The
`current_server` attribute is not touched on any path.  Returns the
result, the new manager, and the trace of process-control calls. -/
def stop_server (m : ServerManager) (name : String) (exitsWithinGrace : Bool) :
    (Bool × String) × ServerManager × List StopAction :=
  if memKey name m.active_servers then
    ((true, "Stopped " ++ name ++ " successfully"),
     { m with active_servers := eraseKey name m.active_servers },
     StopAction.terminate :: StopAction.waitGrace 5 ::
       (if exitsWithinGrace then [] else [StopAction.kill, StopAction.waitForever]))
  else
    ((false, "Server " ++ name ++ " is not running"), m, [])

/-- `ServerManager.switch_server` (flask_app.py lines 246-261).  Fails when
the name is absent from `config['servers']`; starts the server when the
name is absent from `active_servers` (a membership test, not a liveness
poll) and propagates a start failure; otherwise sets `current_server`. -/
def switch_server (m : ServerManager) (name : String) (now : Nat)
    (spawn : List String → Except String ProcState) :
    (Bool × String) × ServerManager :=
  if memKey name m.config.servers then
    if memKey name m.active_servers then
      ((true, "Switched to " ++ name), { m with current_server := name })
    else
      let r := start_server m name now spawn
      if r.1.1 then
        ((true, "Switched to " ++ name), { r.2 with current_server := name })
      else
        ((false, "Failed to start " ++ name ++ ": " ++ r.1.2), r.2)
  else
    ((false, "Server " ++ name ++ " not found"), m)

/-- The three dict shapes `MCPClient.call_tool` can return:
`{'success': True, 'tool', 'result', 'args', 'timestamp'}`,
`{'success': False, 'error'}` (precondition failure, no `tool` key), and
`{'success': False, 'error', 'tool'}`. -/
inductive ToolCallResult where
  | success (tool : String) (result : String) (args : List (String × String)) (timestamp : Nat)
  | failureNoTool (error : String)
  | failure (error : String) (tool : String)
  deriving Repr, DecidableEq

/-- `MCPClient.call_tool` (flask_app.py lines 270-353).  Reads
`current_server`, fails when that name is not in `active_servers`
(a membership test only — no `poll()`), then runs the helper subprocess:
`helper = Except.ok (returncode, stderr)` is the captured run,
`Except.error e` the exception path.  On `returncode = 0` the `result`
field is the locally built string `'Tool ' ++ tool ++ ' called
successfully'` — no response is read back from the worker. -/
def call_tool (m : ServerManager) (tool_name : String)
    (kwargs : List (String × String)) (now : Nat)
    (helper : Except String (Int × String)) : ToolCallResult :=
  if memKey m.current_server m.active_servers then
    match helper with
    | Except.error e => ToolCallResult.failure e tool_name
    | Except.ok (returncode, stderr_text) =>
        if returncode = 0 then
          ToolCallResult.success tool_name
            ("Tool " ++ tool_name ++ " called successfully") kwargs now
        else
          ToolCallResult.failure ("Tool execution failed: " ++ stderr_text) tool_name
  else
    ToolCallResult.failureNoTool ("Server " ++ m.current_server ++ " is not running")

/-! Concrete states used to exercise the operations: a two-server
configuration, an alive and an exited process, and managers in the
states the claims talk about. -/

/-- A configuration with two of the built-in names and the default used by
`server_config.json`. -/
def sampleConfig : Config :=
  { servers := [("SecureAudit", { host := "127.0.0.1", port := 8000 }),
                ("SampleServer", { host := "127.0.0.1", port := 8001 })]
    default_server := some "SecureAudit" }

/-- A process `poll()` still sees as running. -/
def aliveProc : ProcState := { pid := 4242, alive := true, exitCode := 0 }

/-- A process that has exited (out-of-band) with code 1. -/
def deadProc : ProcState := { pid := 4243, alive := false, exitCode := 1 }

/-- A registry entry wrapping the given process. -/
def runningInfo (p : ProcState) : RunningInfo :=
  { process := p, started_at := 100, start_time := 100,
    config := { host := "127.0.0.1", port := 8000 } }

/-- A spawn outcome that always succeeds with a fresh live process. -/
def spawnOk : List String → Except String ProcState :=
  fun _ => Except.ok { pid := 5000, alive := true, exitCode := 0 }

/-- Manager with `SecureAudit` running (alive) and current. -/
def mAlive : ServerManager :=
  { config := sampleConfig
    active_servers := [("SecureAudit", runningInfo aliveProc)]
    current_server := "SecureAudit" }

/-- Manager whose current server `SecureAudit` is still registered in
`active_servers` but whose OS process has already exited (not yet
lazily reaped). -/
def mDead : ServerManager :=
  { config := sampleConfig
    active_servers := [("SecureAudit", runningInfo deadProc)]
    current_server := "SecureAudit" }

/-- A configuration whose single server name is not one of the four names
in the in-code `server_commands` table. -/
def externConfig : Config :=
  { servers := [("AuditWorkerX", { host := "127.0.0.1", port := 9000 })]
    default_server := some "AuditWorkerX" }

/-- A freshly initialized manager over `externConfig`. -/
def mExtern : ServerManager := ServerManager.init externConfig

/-- Whether a `call_tool` outcome is the precondition failure shape
`{'success': False, 'error': ...}` (the dict without a `tool` key). -/
def ToolCallResult.isPreFailure : ToolCallResult → Bool
  | .failureNoTool _ => true
  | _ => false

/-! Association-list lemmas. -/

theorem lookupKey_of_memKey {α : Type} {k : String} {l : List (String × α)}
    (h : memKey k l = true) : ∃ v, lookupKey k l = some v := by
  unfold memKey at h
  exact Option.isSome_iff_exists.mp h

theorem memKey_of_lookupKey {α : Type} {k : String} {l : List (String × α)}
    {v : α} (h : lookupKey k l = some v) : memKey k l = true := by
  simp [memKey, h]

theorem lookupKey_eraseKey_self {α : Type} (k : String) (l : List (String × α)) :
    lookupKey k (eraseKey k l) = none := by
  induction l with
  | nil => rfl
  | cons p rest ih =>
      by_cases h : p.1 = k
      · simpa [eraseKey, List.filter_cons, h] using ih
      · simpa [eraseKey, List.filter_cons, h, lookupKey] using ih

theorem memKey_eraseKey_self {α : Type} (k : String) (l : List (String × α)) :
    memKey k (eraseKey k l) = false := by
  simp [memKey, lookupKey_eraseKey_self]

theorem memKey_false_iff {α : Type} (k : String) (l : List (String × α)) :
    memKey k l = false ↔ k ∉ l.map Prod.fst := by
  induction l with
  | nil => simp [memKey, lookupKey]
  | cons p rest ih =>
      by_cases h : p.1 = k
      · simp [memKey, lookupKey, h]
      · simp only [memKey, lookupKey, h, if_false, List.map_cons, List.mem_cons]
        constructor
        · intro hm hk
          rcases hk with hk | hk
          · exact h hk.symm
          · exact (ih.mp hm) hk
        · intro hk
          exact ih.mpr (fun hmem => hk (Or.inr hmem))

theorem keysNodup_eraseKey {α : Type} (k : String) (l : List (String × α))
    (h : keysNodup l) : keysNodup (eraseKey k l) := by
  unfold keysNodup eraseKey at *
  exact h.sublist (List.Sublist.map _ (List.filter_sublist _))

theorem keysNodup_append_new {α : Type} (k : String) (v : α)
    (l : List (String × α)) (h : keysNodup l) (hk : memKey k l = false) :
    keysNodup (l ++ [(k, v)]) := by
  unfold keysNodup at *
  rw [List.map_append]
  rw [List.nodup_append]
  refine ⟨h, by simp, ?_⟩
  intro a ha hb
  simp only [List.map_cons, List.map_nil, List.mem_singleton] at hb
  subst hb
  exact (memKey_false_iff _ l).mp hk ha

/-! Facts about the operations that several proofs share. -/

/-- The spawn path of `start_server` touches neither the loaded
configuration nor the `current_server` attribute. -/
theorem start_spawn_preserves (m : ServerManager) (name : String) (now : Nat)
    (spawn : List String → Except String ProcState) :
    (start_spawn m name now spawn).2.config = m.config ∧
      (start_spawn m name now spawn).2.current_server = m.current_server := by
  unfold start_spawn
  cases hc : lookupKey name m.config.servers with
  | none => exact ⟨rfl, rfl⟩
  | some cfg =>
      cases hcmd : server_commands name cfg with
      | none => simp [hcmd]
      | some cmd =>
          cases hs : spawn cmd with
          | error e => simp [hcmd, hs]
          | ok p => simp [hcmd, hs]

theorem start_spawn_current_eq (m : ServerManager) (name : String) (now : Nat)
    (spawn : List String → Except String ProcState) :
    (start_spawn m name now spawn).2.current_server = m.current_server :=
  (start_spawn_preserves m name now spawn).2

theorem start_server_current_eq (m : ServerManager) (name : String) (now : Nat)
    (spawn : List String → Except String ProcState) :
    (start_server m name now spawn).2.current_server = m.current_server := by
  unfold start_server
  by_cases hm : memKey name m.active_servers
  · simp only [hm, if_true]
    rcases lookupKey_of_memKey hm with ⟨info, hinfo⟩
    by_cases halive : info.process.alive
    · simp [get_server_status, hinfo, halive, ServerStatus.isRunning]
    · simp only [get_server_status, hinfo, halive, if_false, Bool.false_eq_true]
      simpa [ServerStatus.isRunning] using
        start_spawn_current_eq
          { m with active_servers := eraseKey name m.active_servers } name now spawn
  · simp only [hm, if_false, Bool.false_eq_true]
    exact start_spawn_current_eq m name now spawn

/-- The spawn path preserves key uniqueness of `active_servers` whenever
the name is absent when it runs (which `start_server` guarantees). -/
theorem start_spawn_keysNodup (m : ServerManager) (name : String) (now : Nat)
    (spawn : List String → Except String ProcState)
    (hmem : memKey name m.active_servers = false)
    (h : keysNodup m.active_servers) :
    keysNodup (start_spawn m name now spawn).2.active_servers := by
  unfold start_spawn
  cases hc : lookupKey name m.config.servers with
  | none => exact h
  | some cfg =>
      cases hcmd : server_commands name cfg with
      | none => simpa [hcmd] using h
      | some cmd =>
          cases hs : spawn cmd with
          | error e => simpa [hcmd, hs] using h
          | ok p =>
              simpa [hcmd, hs] using
                keysNodup_append_new name
                  { process := p, started_at := now, start_time := now, config := cfg }
                  m.active_servers h hmem

/-- `start_server` preserves key uniqueness of the running map: the only
insertion happens after the early-return check (and possibly the lazy
reap) has established that the name is absent. -/
theorem start_server_keysNodup (m : ServerManager) (name : String) (now : Nat)
    (spawn : List String → Except String ProcState)
    (h : keysNodup m.active_servers) :
    keysNodup (start_server m name now spawn).2.active_servers := by
  unfold start_server
  by_cases hm : memKey name m.active_servers
  · simp only [hm, if_true]
    rcases lookupKey_of_memKey hm with ⟨info, hinfo⟩
    by_cases halive : info.process.alive
    · simpa [get_server_status, hinfo, halive, ServerStatus.isRunning] using h
    · simp only [get_server_status, hinfo, halive, Bool.false_eq_true, if_false]
      simp only [ServerStatus.isRunning]
      exact start_spawn_keysNodup
        { m with active_servers := eraseKey name m.active_servers } name now spawn
        (memKey_eraseKey_self name m.active_servers)
        (keysNodup_eraseKey name m.active_servers h)
  · simp only [hm, Bool.false_eq_true, if_false]
    exact start_spawn_keysNodup m name now spawn (by simpa using hm) h

/-- C2 (amended): the claimed invariant fails at startup.  `__init__` sets
the active pointer to the configured default name (falling back to
`"SecureAudit"`) while the running map is empty, so the pointer is never
absent and may name a worker outside the running map; moreover no
operation ever clears it — in particular `stop_server` leaves
`current_server` untouched on every path. -/
theorem active_pointer_init_default_never_cleared (cfg : Config)
    (m : ServerManager) (name : String) (graceful : Bool) :
    currentActive (ServerManager.init cfg) = some (cfg.default_server.getD "SecureAudit") ∧
    (ServerManager.init cfg).active_servers = [] ∧
    (currentActive m).isSome = true ∧
    (stop_server m name graceful).2.1.current_server = m.current_server := by
  refine ⟨rfl, rfl, rfl, ?_⟩
  by_cases h : memKey name m.active_servers
  · simp [stop_server, h]
  · simp [stop_server, h]

/-- C2 counterexample: at startup over `sampleConfig` the active pointer is
already set to `"SecureAudit"` although the running set is empty, so the
pointer names a worker absent from the running set — the claimed
invariant (`absent at startup; if set, names a running worker`) is false
in the initial state itself. -/
theorem init_pointer_set_while_nothing_runs :
    currentActive (ServerManager.init sampleConfig) = some "SecureAudit" ∧
    (ServerManager.init sampleConfig).active_servers = [] ∧
    memKey "SecureAudit" (ServerManager.init sampleConfig).active_servers = false := by
  decide

/-- C6: starting a name whose registered process is still alive fails with
the already-running message and returns the manager unchanged — the
existing entry (hence its pid) is untouched, no second process is
spawned, and key uniqueness of the running map is preserved. -/
theorem start_server_already_running (m : ServerManager) (name : String)
    (now : Nat) (spawn : List String → Except String ProcState)
    (info : RunningInfo)
    (hlk : lookupKey name m.active_servers = some info)
    (halive : info.process.alive = true)
    (hnodup : keysNodup m.active_servers) :
    start_server m name now spawn
      = ((false, "Server " ++ name ++ " is already running"), m) ∧
    lookupKey name (start_server m name now spawn).2.active_servers = some info ∧
    keysNodup (start_server m name now spawn).2.active_servers := by
  have hm : memKey name m.active_servers = true := memKey_of_lookupKey hlk
  have heq : start_server m name now spawn
      = ((false, "Server " ++ name ++ " is already running"), m) := by
    simp [start_server, hm, get_server_status, hlk, halive, ServerStatus.isRunning]
  refine ⟨heq, ?_, ?_⟩
  · rw [heq]; exact hlk
  · rw [heq]; exact hnodup

/-- C6 witness: concrete second start of the alive `SecureAudit` worker. -/
theorem start_server_already_running_witness :
    start_server mAlive "SecureAudit" 200 spawnOk
      = ((false, "Server " ++ "SecureAudit" ++ " is already running"), mAlive) ∧
    lookupKey "SecureAudit" (start_server mAlive "SecureAudit" 200 spawnOk).2.active_servers
      = some (runningInfo aliveProc) ∧
    keysNodup (start_server mAlive "SecureAudit" 200 spawnOk).2.active_servers :=
  start_server_already_running mAlive "SecureAudit" 200 spawnOk
    (runningInfo aliveProc) (by decide) (by decide) (by decide)

/-- C7: querying the status of a registered worker whose process has
exited reports the captured exit code and, as a side effect of the query
alone, removes the entry from the running map (lazy reap) — no explicit
stop is involved. -/
theorem get_server_status_lazy_reap (m : ServerManager) (name : String)
    (now : Nat) (info : RunningInfo)
    (hlk : lookupKey name m.active_servers = some info)
    (hdead : info.process.alive = false) :
    get_server_status m name now
      = (ServerStatus.exited info.process.exitCode now,
         { m with active_servers := eraseKey name m.active_servers }) ∧
    memKey name (get_server_status m name now).2.active_servers = false := by
  constructor
  · simp [get_server_status, hlk, hdead]
  · simp [get_server_status, hlk, hdead, memKey_eraseKey_self]

/-- C7 witness: out-of-band-killed `SecureAudit` worker is reaped by a
status query. -/
theorem get_server_status_lazy_reap_witness :
    get_server_status mDead "SecureAudit" 200
      = (ServerStatus.exited (runningInfo deadProc).process.exitCode 200,
         { mDead with active_servers := eraseKey "SecureAudit" mDead.active_servers }) ∧
    memKey "SecureAudit" (get_server_status mDead "SecureAudit" 200).2.active_servers = false :=
  get_server_status_lazy_reap mDead "SecureAudit" 200 (runningInfo deadProc)
    (by decide) (by decide)

/-- C8: stopping an unregistered name fails with the not-running message
and changes nothing; stopping a registered worker terminates it, waits
within the 5-second grace window, force-kills and waits unboundedly only
when the grace window is exceeded, unregisters the entry on both paths,
and reports success — afterwards the name is absent from the running
map. -/
theorem stop_server_spec (m : ServerManager) (name : String) (graceful : Bool) :
    (memKey name m.active_servers = false →
       stop_server m name graceful
         = ((false, "Server " ++ name ++ " is not running"), m, [])) ∧
    (memKey name m.active_servers = true →
       stop_server m name graceful
         = ((true, "Stopped " ++ name ++ " successfully"),
            { m with active_servers := eraseKey name m.active_servers },
            StopAction.terminate :: StopAction.waitGrace 5 ::
              (if graceful then [] else [StopAction.kill, StopAction.waitForever]))) ∧
    memKey name (stop_server m name graceful).2.1.active_servers = false := by
  by_cases h : memKey name m.active_servers
  · refine ⟨fun hc => by rw [hc] at h; exact absurd h (by simp), fun _ => ?_, ?_⟩
    · simp [stop_server, h]
    · simp [stop_server, h, memKey_eraseKey_self]
  · refine ⟨fun _ => ?_, fun hc => absurd hc h, ?_⟩
    · simp [stop_server, h]
    · simp [stop_server, h]

/-- C8 witness: both stop paths at concrete states — the graceful stop of
the running `SecureAudit` worker unregisters it, and stopping it on the
fresh manager fails as not running. -/
theorem stop_server_spec_witness :
    (stop_server mAlive "SecureAudit" true
       = ((true, "Stopped " ++ "SecureAudit" ++ " successfully"),
          { mAlive with active_servers := eraseKey "SecureAudit" mAlive.active_servers },
          StopAction.terminate :: StopAction.waitGrace 5 ::
            (if true then [] else [StopAction.kill, StopAction.waitForever]))) ∧
    memKey "SecureAudit" (stop_server mAlive "SecureAudit" true).2.1.active_servers = false ∧
    (stop_server (ServerManager.init sampleConfig) "SecureAudit" false
       = ((false, "Server " ++ "SecureAudit" ++ " is not running"),
          ServerManager.init sampleConfig, [])) :=
  ⟨(stop_server_spec mAlive "SecureAudit" true).2.1 (by decide),
   (stop_server_spec mAlive "SecureAudit" true).2.2,
   (stop_server_spec (ServerManager.init sampleConfig) "SecureAudit" false).1 (by decide)⟩

/-- C1 counterexample: stopping the active worker does NOT clear the
active pointer.  With `SecureAudit` running and current, `stop_server`
succeeds, yet `currentActive` afterwards is still `some "SecureAudit"`,
not `none`. -/
theorem stop_active_pointer_not_cleared :
    currentActive mAlive = some "SecureAudit" ∧
    (stop_server mAlive "SecureAudit" true).1.1 = true ∧
    currentActive (stop_server mAlive "SecureAudit" true).2.1 ≠ none := by
  decide

/-- C1 (amended): a successful stop of the active worker leaves the active
pointer unchanged (still naming the stopped worker); a subsequent tool
call fails, but with the membership-check error `"Server <name> is not
running"` rather than a no-active-worker failure, because the pointer is
never `None`. -/
theorem stop_active_leaves_dangling_pointer (m : ServerManager)
    (graceful : Bool) (tool : String) (kwargs : List (String × String))
    (now : Nat) (helper : Except String (Int × String))
    (h : memKey m.current_server m.active_servers = true) :
    (stop_server m m.current_server graceful).1.1 = true ∧
    currentActive (stop_server m m.current_server graceful).2.1
      = some m.current_server ∧
    call_tool (stop_server m m.current_server graceful).2.1 tool kwargs now helper
      = ToolCallResult.failureNoTool
          ("Server " ++ m.current_server ++ " is not running") := by
  refine ⟨?_, ?_, ?_⟩
  · simp [stop_server, h]
  · simp [stop_server, h, currentActive]
  · simp [stop_server, h, call_tool, memKey_eraseKey_self]

/-- C1 witness: the amended behaviour at the concrete running manager. -/
theorem stop_active_leaves_dangling_pointer_witness :
    (stop_server mAlive mAlive.current_server true).1.1 = true ∧
    currentActive (stop_server mAlive mAlive.current_server true).2.1
      = some mAlive.current_server ∧
    call_tool (stop_server mAlive mAlive.current_server true).2.1 "list_audits"
        [("status", "open")] 300 (Except.ok (0, ""))
      = ToolCallResult.failureNoTool
          ("Server " ++ mAlive.current_server ++ " is not running") :=
  stop_active_leaves_dangling_pointer mAlive true "list_audits"
    [("status", "open")] 300 (Except.ok (0, "")) (by decide)

/-- C3: with the active worker registered and the helper subprocess
exiting 0, `call_tool` returns a result string fabricated locally
(`"Tool <name> called successfully"`), a function of the tool name alone
— nothing is read back from the worker (the embedding's only inputs are
the manager state and the helper subprocess outcome, and the worker's
output is neither). -/
theorem call_tool_result_locally_fabricated (m : ServerManager)
    (tool : String) (kwargs : List (String × String)) (now : Nat)
    (stderr_text : String)
    (h : memKey m.current_server m.active_servers = true) :
    call_tool m tool kwargs now (Except.ok (0, stderr_text))
      = ToolCallResult.success tool
          ("Tool " ++ tool ++ " called successfully") kwargs now := by
  simp [call_tool, h]

/-- C3 witness: the fabricated success at a concrete call. -/
theorem call_tool_result_locally_fabricated_witness :
    call_tool mAlive "list_audits" [("status", "open")] 300 (Except.ok (0, ""))
      = ToolCallResult.success "list_audits"
          ("Tool " ++ "list_audits" ++ " called successfully")
          [("status", "open")] 300 :=
  call_tool_result_locally_fabricated mAlive "list_audits" [("status", "open")]
    300 "" (by decide)

/-- C4 counterexample: the active worker's entry is still registered but
its process has exited; the claim says `invoke` must fail with a
worker-not-running error, yet `call_tool` passes its precondition (a pure
membership check) and reports success. -/
theorem call_tool_succeeds_on_exited_worker :
    currentActive mDead = some "SecureAudit" ∧
    lookupKey "SecureAudit" mDead.active_servers = some (runningInfo deadProc) ∧
    (runningInfo deadProc).process.alive = false ∧
    call_tool mDead "get_audit" [("audit_id", "1")] 300 (Except.ok (0, ""))
      = ToolCallResult.success "get_audit"
          ("Tool " ++ "get_audit" ++ " called successfully")
          [("audit_id", "1")] 300 := by
  decide

/-- C4 (amended): the precondition of `call_tool` is exactly membership of
`current_server` in the running map — when absent it fails with the
`"Server <name> is not running"` shape, and when present it never fails
with that shape, regardless of whether the registered process is still
alive (no liveness poll, no lazy reap, and no separate no-active-worker
case since the pointer always holds a name). -/
theorem call_tool_precondition_membership (m : ServerManager)
    (tool : String) (kwargs : List (String × String)) (now : Nat)
    (helper : Except String (Int × String)) :
    (memKey m.current_server m.active_servers = false →
       call_tool m tool kwargs now helper
         = ToolCallResult.failureNoTool
             ("Server " ++ m.current_server ++ " is not running")) ∧
    (memKey m.current_server m.active_servers = true →
       (call_tool m tool kwargs now helper).isPreFailure = false) := by
  constructor
  · intro h
    simp [call_tool, h]
  · intro h
    cases helper with
    | error e => simp [call_tool, h, ToolCallResult.isPreFailure]
    | ok r =>
        rcases r with ⟨rc, serr⟩
        by_cases hrc : rc = 0
        · simp [call_tool, h, hrc, ToolCallResult.isPreFailure]
        · simp [call_tool, h, hrc, ToolCallResult.isPreFailure]

/-- C4 witness: both sides of the membership test — the fresh manager
(nothing running) fails with the not-running shape, while the manager
whose active worker has exited but is still registered does not hit the
precondition failure. -/
theorem call_tool_precondition_membership_witness :
    (call_tool (ServerManager.init sampleConfig) "get_audit" [] 300 (Except.ok (0, ""))
       = ToolCallResult.failureNoTool
           ("Server " ++ (ServerManager.init sampleConfig).current_server
             ++ " is not running")) ∧
    (call_tool mDead "get_audit" [] 300 (Except.ok (0, ""))).isPreFailure = false :=
  ⟨(call_tool_precondition_membership (ServerManager.init sampleConfig) "get_audit"
      [] 300 (Except.ok (0, ""))).1 (by decide),
   (call_tool_precondition_membership mDead "get_audit"
      [] 300 (Except.ok (0, ""))).2 (by decide)⟩

/-- C5: `switch_server` on a name absent from the configuration fails with
the not-found message and leaves the whole state (hence the active
pointer) unchanged; on a configured name absent from the running map it
performs an implicit start — propagating a start failure with the
active pointer unchanged, and on a successful start setting the pointer;
on a configured name already in the running map it just sets the
pointer. -/
theorem switch_server_spec (m : ServerManager) (name : String) (now : Nat)
    (spawn : List String → Except String ProcState) :
    (memKey name m.config.servers = false →
       switch_server m name now spawn
         = ((false, "Server " ++ name ++ " not found"), m)) ∧
    (memKey name m.config.servers = true →
       memKey name m.active_servers = false →
       (start_server m name now spawn).1.1 = false →
       switch_server m name now spawn
         = ((false, "Failed to start " ++ name ++ ": "
               ++ (start_server m name now spawn).1.2),
            (start_server m name now spawn).2) ∧
       (switch_server m name now spawn).2.current_server = m.current_server) ∧
    (memKey name m.config.servers = true →
       memKey name m.active_servers = true →
       switch_server m name now spawn
         = ((true, "Switched to " ++ name), { m with current_server := name })) ∧
    (memKey name m.config.servers = true →
       memKey name m.active_servers = false →
       (start_server m name now spawn).1.1 = true →
       switch_server m name now spawn
         = ((true, "Switched to " ++ name),
            { (start_server m name now spawn).2 with current_server := name })) := by
  refine ⟨?_, ?_, ?_, ?_⟩
  · intro hcfg
    simp [switch_server, hcfg]
  · intro hcfg hrun hfail
    have heq : switch_server m name now spawn
        = ((false, "Failed to start " ++ name ++ ": "
              ++ (start_server m name now spawn).1.2),
           (start_server m name now spawn).2) := by
      simp [switch_server, hcfg, hrun, hfail]
    refine ⟨heq, ?_⟩
    rw [heq]
    exact start_server_current_eq m name now spawn
  · intro hcfg hrun
    simp [switch_server, hcfg, hrun]
  · intro hcfg hrun hok
    simp [switch_server, hcfg, hrun, hok]

/-- C5 witness: switching to an unconfigured name fails and changes
nothing; switching to the configured, never-started `SampleServer` on a
fresh manager starts it and sets the pointer. -/
theorem switch_server_spec_witness :
    (switch_server mAlive "unknown" 0 spawnOk
       = ((false, "Server " ++ "unknown" ++ " not found"), mAlive)) ∧
    (switch_server (ServerManager.init sampleConfig) "SampleServer" 0 spawnOk
       = ((true, "Switched to " ++ "SampleServer"),
          { (start_server (ServerManager.init sampleConfig) "SampleServer" 0 spawnOk).2
              with current_server := "SampleServer" })) :=
  ⟨(switch_server_spec mAlive "unknown" 0 spawnOk).1 (by decide),
   (switch_server_spec (ServerManager.init sampleConfig) "SampleServer" 0
      spawnOk).2.2.2 (by decide) (by decide) (by decide)⟩

/-- C9 counterexample: a configured, not-running worker named
`"AuditWorkerX"` cannot be started even though the spawn call would
succeed — `start_server` fails with `"Unknown server: AuditWorkerX"`
because the command comes from a fixed in-code table of four names, not
from the configuration data. -/
theorem start_configured_name_fails_as_unknown :
    memKey "AuditWorkerX" mExtern.config.servers = true ∧
    memKey "AuditWorkerX" mExtern.active_servers = false ∧
    start_server mExtern "AuditWorkerX" 0 spawnOk
      = ((false, "Unknown server: " ++ "AuditWorkerX"), mExtern) := by
  decide

/-- C9 (amended): for a configured, not-running name the launch command is
looked up in the fixed in-code `server_commands` table, which covers
exactly the four names `SecureAudit`, `SampleServer`, `HttpAuditServer`
and `SSEAuditServer` (with host and port read from the configuration for
the last two): any other configured name fails with `"Unknown server"`;
for a tabled name, a spawn error is propagated as a start failure with
the state unchanged, and a successful spawn registers the new
`RunningInfo` and reports success. -/
theorem start_server_table_spec (m : ServerManager) (name : String)
    (now : Nat) (spawn : List String → Except String ProcState)
    (cfg : WorkerConfig)
    (hrun : memKey name m.active_servers = false)
    (hcfg : lookupKey name m.config.servers = some cfg) :
    ((server_commands name cfg).isSome = true ↔
       (name = "SecureAudit" ∨ name = "SampleServer" ∨
        name = "HttpAuditServer" ∨ name = "SSEAuditServer")) ∧
    (server_commands name cfg = none →
       start_server m name now spawn
         = ((false, "Unknown server: " ++ name), m)) ∧
    (∀ cmd e, server_commands name cfg = some cmd →
       spawn cmd = Except.error e →
       start_server m name now spawn
         = ((false, "Failed to start server: " ++ e), m)) ∧
    (∀ cmd p, server_commands name cfg = some cmd →
       spawn cmd = Except.ok p →
       start_server m name now spawn
         = ((true, "Started " ++ name ++ " successfully"),
            { m with active_servers := m.active_servers ++
                [(name, { process := p, started_at := now, start_time := now,
                          config := cfg })] })) := by
  refine ⟨?_, ?_, ?_, ?_⟩
  · constructor
    · intro hsome
      by_cases h1 : name = "SecureAudit"
      · exact Or.inl h1
      by_cases h2 : name = "SampleServer"
      · exact Or.inr (Or.inl h2)
      by_cases h3 : name = "HttpAuditServer"
      · exact Or.inr (Or.inr (Or.inl h3))
      by_cases h4 : name = "SSEAuditServer"
      · exact Or.inr (Or.inr (Or.inr h4))
      rw [server_commands] at hsome
      simp [h1, h2, h3, h4] at hsome
    · rintro (h | h | h | h) <;> subst h <;> rfl
  · intro hnone
    simp [start_server, hrun, start_spawn, hcfg, hnone]
  · intro cmd e hsome hspawn
    simp [start_server, hrun, start_spawn, hcfg, hsome, hspawn]
  · intro cmd p hsome hspawn
    simp [start_server, hrun, start_spawn, hcfg, hsome, hspawn]

/-- C9 witness: starting the configured, not-running `SecureAudit` on a
fresh manager spawns it with the tabled stdio command and registers the
new process. -/
theorem start_server_table_spec_witness :
    start_server (ServerManager.init sampleConfig) "SecureAudit" 7 spawnOk
      = ((true, "Started " ++ "SecureAudit" ++ " successfully"),
         { ServerManager.init sampleConfig with active_servers :=
             (ServerManager.init sampleConfig).active_servers ++
               [("SecureAudit",
                 { process := { pid := 5000, alive := true, exitCode := 0 },
                   started_at := 7, start_time := 7,
                   config := { host := "127.0.0.1", port := 8000 } })] }) :=
  (start_server_table_spec (ServerManager.init sampleConfig) "SecureAudit" 7
      spawnOk { host := "127.0.0.1", port := 8000 } (by decide) (by decide)).2.2.2
    ["python3", "servers/secure_audit_server.py", "--transport", "stdio"]
    { pid := 5000, alive := true, exitCode := 0 } (by decide) rfl

/-- C10: `switch_server` tests only membership of the name in the running
map — for a configured name whose entry is still registered although its
process has exited, it reports success and sets the pointer while the
running map (and with it the dead entry) is left exactly as it was: no
restart happens and the spawn capability is never consulted. -/
theorem switch_server_membership_only (m : ServerManager) (name : String)
    (now : Nat) (spawn : List String → Except String ProcState)
    (info : RunningInfo)
    (hcfg : memKey name m.config.servers = true)
    (hlk : lookupKey name m.active_servers = some info)
    (_hdead : info.process.alive = false) :
    switch_server m name now spawn
      = ((true, "Switched to " ++ name), { m with current_server := name }) := by
  have hrun : memKey name m.active_servers = true := memKey_of_lookupKey hlk
  simp [switch_server, hcfg, hrun]

/-- C10 witness: switching to the exited-but-unreaped `SecureAudit` worker
succeeds without restarting it. -/
theorem switch_server_membership_only_witness :
    switch_server mDead "SecureAudit" 0 spawnOk
      = ((true, "Switched to " ++ "SecureAudit"),
         { mDead with current_server := "SecureAudit" }) :=
  switch_server_membership_only mDead "SecureAudit" 0 spawnOk
    (runningInfo deadProc) (by decide) (by decide) (by decide)

end MCPAudit
